import Mathlib

/-!
Verification development for the SemaphoreNetwork provider-node sources.

The development embeds the three core components as pure Lean functions:
* `Semaphore.PaymentChannel` — the in-memory channel state machine
  (`PaymentChannel` class: `update`, `isOpen`, `pushExpiry`, `checkExpiry`,
  and the defensive-copy `session` getter, modelled over an explicit heap).
* `Semaphore.ChannelCache` — the persistent channel index backed by a
  key-value store (`ChannelCache` class: record hash plus the named
  membership lists of open and closed channel ids).
* `Semaphore.ProviderNode` — the settlement engine (`ProviderNode` class:
  `openChannel`, `updateChannel`, `redeemChannels`, `retire` and their
  validation helpers).

The clock is passed explicitly (`now`, in unix seconds).  Asynchronous
methods whose promise the source does not await are modelled by computing
their result and discarding it: the caller observes neither the result
nor a rejection, exactly as in the source, while effects the un-awaited
call performs synchronously still occur.

The source carries three wiring defects that dominate its observable
behaviour: the membership-list commit is a malformed 2-argument `hset` to
a key different from the one every list read uses; the ledger dispatch
(`sendTransaction` / `estimateGas`) indexes `this.config[chainId]` on a
config that has no such field and throws a TypeError before reaching any
endpoint; and `this.cache` is declared but never assigned, so every cache
access in the provider throws a TypeError.  The development therefore has
two layers: a FAITHFUL layer (`RedisStore`, `ProviderNodeF`) embedding
those defects, which settles the claims they decide, and a REPAIRED layer
(`ChannelCache`, `Oracle`, `ProviderNode`) modelling the intended wiring,
used only where the record-hash path is faithful as-is or where a
theorem's conclusions hold with and without the repairs.
-/

namespace Semaphore

/-! ## Channel state machine (`PaymentChannel`) -/

inductive Status
  | OPEN
  | CLOSED
deriving DecidableEq, Repr, Inhabited

structure State where
  iteration : Nat
  amount : Nat
  expiry : Nat
  signature : Option String
  status : Status
deriving DecidableEq, Repr, Inhabited

structure Session where
  id : String
  chainId : String
  sender : String
  receiver : String
  nonce : Nat
  asset : String
  state : State
deriving DecidableEq, Repr, Inhabited

structure PaymentChannel where
  TTL : Nat
  _session : Session
deriving DecidableEq, Repr, Inhabited

namespace PaymentChannel

/-- `MIN_TTL`: ten minutes, the minimum expiry period. -/
def MIN_TTL : Nat := 60 * 10

/-- The public `session` getter (value view): the spread copy returns a value
equal to the stored session.  Aliasing behaviour is modelled separately on the
heap embedding below. -/
def session (pc : PaymentChannel) : Session := pc._session

/-- `checkExpiry`: true when the current time is strictly past the stored
watchdog expiry. -/
def checkExpiry (now : Nat) (pc : PaymentChannel) : Bool :=
  now > pc._session.state.expiry

/-- `isOpen`: status is OPEN and the watchdog expiry has not lapsed. -/
def isOpen (now : Nat) (pc : PaymentChannel) : Bool :=
  if pc._session.state.status = Status.OPEN then !(checkExpiry now pc) else false

/-- `pushExpiry`: re-asserts openness, then sets the watchdog expiry to
`now + TTL`. -/
def pushExpiry (now : Nat) (pc : PaymentChannel) : Except String PaymentChannel :=
  if isOpen now pc then
    Except.ok { pc with _session := { pc._session with
      state := { pc._session.state with expiry := now + pc.TTL } } }
  else
    Except.error "Session is closed."

/-- `update(amount, signature)`: asserts openness, bumps the iteration,
overwrites amount and signature, then runs `pushExpiry`. -/
def update (now : Nat) (amount : Nat) (signature : String) (pc : PaymentChannel) :
    Except String PaymentChannel :=
  if isOpen now pc then
    pushExpiry now { pc with _session := { pc._session with
      state := { pc._session.state with
        iteration := pc._session.state.iteration + 1
        amount := amount
        signature := some signature } } }
  else
    Except.error "Session is closed."

/-- `close()`: one-way transition to CLOSED. -/
def close (pc : PaymentChannel) : PaymentChannel :=
  { pc with _session := { pc._session with
    state := { pc._session.state with status := Status.CLOSED } } }

end PaymentChannel

/-! ## Heap embedding of the `session` getter

JavaScript objects are references into a heap.  To state the aliasing
behaviour of the getter `get session() := spread-copy of _session with a
spread-copied state`, sessions and states are placed in an explicit heap
and the getter allocates fresh cells.  A `SessionCell` is a `Session` whose
`state` field is a reference into the state heap. -/

structure SessionCell where
  id : String
  chainId : String
  sender : String
  receiver : String
  nonce : Nat
  asset : String
  stateRef : Nat
deriving DecidableEq, Repr, Inhabited

structure Heap where
  states : List State
  sessions : List SessionCell
deriving DecidableEq, Repr, Inhabited

/-- A `PaymentChannel` object whose `_session` field is a reference into the
session heap. -/
structure ChannelRef where
  TTL : Nat
  sessionRef : Nat
deriving DecidableEq, Repr, Inhabited

namespace Heap

def readState (h : Heap) (r : Nat) : State := h.states.getD r default

def readSession (h : Heap) (r : Nat) : SessionCell := h.sessions.getD r default

/-- Mutate one session object in place. -/
def writeSession (h : Heap) (r : Nat) (f : SessionCell → SessionCell) : Heap :=
  { h with sessions := h.sessions.set r (f (h.readSession r)) }

/-- Mutate one state object in place. -/
def writeState (h : Heap) (r : Nat) (f : State → State) : Heap :=
  { h with states := h.states.set r (f (h.readState r)) }

/-- The public `session` getter: spread-copies the internal session object and
its nested state object into freshly allocated cells and returns a reference
to the fresh session copy. -/
def sessionGetter (h : Heap) (c : ChannelRef) : Heap × Nat :=
  let cell := h.readSession c.sessionRef
  let st := h.readState cell.stateRef
  let newStateRef := h.states.length
  let newSessionRef := h.sessions.length
  ({ states := h.states ++ [st]
     sessions := h.sessions ++ [{ cell with stateRef := newStateRef }] },
   newSessionRef)

/-- Assemble the in-memory value of the channel stored behind a reference;
`isOpen` / `update` read exactly this view. -/
def toChannel (h : Heap) (c : ChannelRef) : PaymentChannel :=
  let cell := h.readSession c.sessionRef
  { TTL := c.TTL
    _session :=
      { id := cell.id
        chainId := cell.chainId
        sender := cell.sender
        receiver := cell.receiver
        nonce := cell.nonce
        asset := cell.asset
        state := h.readState cell.stateRef } }

end Heap

/-! ## Channel index (`ChannelCache`) -/

/-- The stored channel state (index flavour): amounts are decimal strings,
`timestamp` is the unix-seconds time of the last update. -/
structure ChannelState where
  timestamp : Nat
  iteration : Nat
  amount : String
  expiry : Nat
  signature : String
deriving DecidableEq, Repr, Inhabited

/-- Stored channel record: static header plus the active state. -/
structure Channel where
  id : String
  chainId : String
  sender : String
  receiver : String
  asset : String
  state : ChannelState
deriving DecidableEq, Repr, Inhabited

/-- Repaired view of the persistent store behind the index: the record hash
(field id to channel record) and the two named membership lists.
The source reads each membership list with `hget(prefix:list, which)` but
commits the rewritten list with a malformed 2-argument `hset` on the
DIFFERENT key `prefix:which`, so in the real store no list commit ever
reaches the lists the code reads; that faithful behaviour is modelled by
`RedisStore` below.  This structure additionally assumes the commit lands
on the list that was read, and is used only on paths whose record-hash
reads and writes are faithful, or by theorems whose conclusions hold with
and without the repair. -/
structure ChannelCache where
  receiver : String
  channels : List (String × Channel)
  openList : List String
  closedList : List String
deriving DecidableEq, Repr, Inhabited

/-- Which named membership list an operation targets. -/
inductive WhichList
  | openL
  | closedL
deriving DecidableEq, Repr

namespace ChannelCache

def getList (c : ChannelCache) : WhichList → List String
  | WhichList.openL => c.openList
  | WhichList.closedL => c.closedList

def setList (c : ChannelCache) (w : WhichList) (l : List String) : ChannelCache :=
  match w with
  | WhichList.openL => { c with openList := l }
  | WhichList.closedL => { c with closedList := l }

/-- `hset` on the record hash: stores the value under the field and reports how
many fields were newly created (1 when the field was absent, 0 on overwrite). -/
def hsetChannel : List (String × Channel) → String → Channel → List (String × Channel) × Nat
  | [], id, ch => ([(id, ch)], 1)
  | (k, v) :: rest, id, ch =>
    if k = id then ((k, ch) :: rest, 0)
    else
      let r := hsetChannel rest id ch
      ((k, v) :: r.1, r.2)

/-- `getChannel(id)`: the record stored under the id, if any. -/
def getChannel (c : ChannelCache) (id : String) : Option Channel :=
  c.channels.lookup id

/-- `getOpenChannels()`. -/
def getOpenChannels (c : ChannelCache) : List String := c.openList

/-- `getClosedChannels()`. -/
def getClosedChannels (c : ChannelCache) : List String := c.closedList

/-- One iteration of the loop body of `updateChannelList`: find the id in the
list; on a removal, a missing id records `false` and is skipped, otherwise the
entry is spliced out; on an insertion, a present id records `false` and is
skipped, otherwise the id is pushed.  Successful ids record nothing (the
source only ever pushes `false` into its `success` array). -/
def listStep (remove : Bool) (acc : List String × List Bool) (id : String) :
    List String × List Bool :=
  let targetChannelIndex := acc.1.findIdx? (fun value => value = id)
  if remove then
    match targetChannelIndex with
    | none => (acc.1, acc.2 ++ [false])
    | some i => (acc.1.eraseIdx i, acc.2)
  else
    match targetChannelIndex with
    | some _ => (acc.1, acc.2 ++ [false])
    | none => (acc.1 ++ [id], acc.2)

/-- `updateChannelList(which, ids, remove)` with a repaired commit: read the
named list, apply the loop to every id, commit the rewritten list back to
the list that was read, and return the success array.  The source instead
commits with a malformed 2-argument `hset` to the unread key
`prefix:which`, so the real commit always rejects and alters nothing — see
`RedisStore.updateChannelList` for the faithful version. -/
def updateChannelList (c : ChannelCache) (w : WhichList) (ids : List String)
    (remove : Bool) : ChannelCache × List Bool :=
  let res := ids.foldl (listStep remove) (c.getList w, [])
  (c.setList w res.1, res.2)

/-- A JavaScript array object is always truthy, whatever its contents; the
source tests `if (!res)` on the success array returned by
`updateChannelList`, and that test can never succeed. -/
def arrayTruthy (_l : List Bool) : Bool := true

/-- `closeChannels(ids)`: remove every id from the open list, then add every
id to the closed list.  The two early-return guards test the truthiness of
the returned success arrays and are therefore never taken. -/
def closeChannels (c : ChannelCache) (ids : List String) : ChannelCache × Bool :=
  let r1 := updateChannelList c WhichList.openL ids true
  if !(arrayTruthy r1.2) then (r1.1, false)
  else
    let r2 := updateChannelList r1.1 WhichList.closedL ids false
    if !(arrayTruthy r2.2) then (r2.1, false)
    else (r2.1, true)

/-- `insertChannel`: fails when a record with the id already exists; otherwise
creates the record with iteration 1, stores it, and adds the id to the open
list.  Returns `Number(res >= 1)` from the record `hset`. -/
def insertChannel (now : Nat) (c : ChannelCache) (id chainId sender asset amount : String)
    (expiry : Nat) (signature : String) : ChannelCache × Except String Nat :=
  match c.channels.lookup id with
  | some _ =>
    (c, Except.error ("Channel with given ID (" ++ id ++ ") already exists."))
  | none =>
    let channel : Channel :=
      { id := id
        chainId := chainId
        sender := sender
        receiver := c.receiver
        asset := asset
        state :=
          { timestamp := now
            iteration := 1
            amount := amount
            expiry := expiry
            signature := signature } }
    let hres := hsetChannel c.channels id channel
    let c1 := { c with channels := hres.1 }
    let c2 := (updateChannelList c1 WhichList.openL [id] false).1
    (c2, Except.ok (if hres.2 ≥ 1 then 1 else 0))

/-- `assertChannelIsOpen(id)`: rejects when the id is not in the open list. -/
def assertChannelIsOpen (c : ChannelCache) (id : String) : Except String Unit :=
  if (c.openList.findIdx? (fun value => value = id)).isSome then Except.ok ()
  else Except.error ("Channel with given ID " ++ id ++ " is no longer open.")

/-- `updateChannel`: fails when no record with the id exists; then invokes
`assertChannelIsOpen` WITHOUT awaiting it, so the returned promise — and any
rejection — is discarded and the update proceeds regardless of the open list;
finally bumps the iteration and overwrites amount, expiry, signature and
timestamp. -/
def updateChannel (now : Nat) (c : ChannelCache) (id amount : String) (expiry : Nat)
    (signature : String) : ChannelCache × Except String Nat :=
  match c.channels.lookup id with
  | none =>
    (c, Except.error ("Channel with given ID (" ++ id ++ ") does not exist."))
  | some channel =>
    let _discardedOpenCheck := assertChannelIsOpen c id
    let channel' :=
      { channel with state :=
        { timestamp := now
          iteration := channel.state.iteration + 1
          amount := amount
          expiry := expiry
          signature := signature } }
    let hres := hsetChannel c.channels id channel'
    ({ c with channels := hres.1 }, Except.ok (if hres.2 ≥ 1 then 1 else 0))

end ChannelCache

/-! ## Settlement engine (`ProviderNode`) -/

structure ChainConfig where
  assets : List String
deriving DecidableEq, Repr, Inhabited

structure ProviderConfig where
  chains : List (String × ChainConfig)
  expiryTolerance : Nat
deriving DecidableEq, Repr, Inhabited

/-- Repaired ledger-dispatch capability: for each call, whether some
configured endpoint answered it successfully (`sendTransaction` resolves to
`undefined` — here `false` — when every endpoint fails).  The source bodies
of `estimateGas` and `sendTransaction` iterate
`this.config[chainId].providers`, but the config object has only the fields
`chains` and `channels`, so every real dispatch throws a TypeError before
consulting any endpoint — see `ProviderNodeF.sendTransactionF`.  This
oracle models the intended dispatch and is used only by theorems whose
conclusions hold with and without that repair. -/
structure Oracle where
  /-- Result of the `isSubscriber` read on the membership contract,
  per (chainId, subscriber). -/
  isSubscriber : String → String → Bool
  /-- Whether the gas-estimation dry run of `claim(id, asset, amount, expiry,
  signature)` succeeds. -/
  estimateGasOk : String → String → String → Nat → String → Bool
  /-- Whether the on-chain `claim` transaction for a channel succeeds. -/
  claimTx : Channel → Bool

/-- Repaired provider state with a working `cache` field.  The source
declares `private readonly cache: ChannelCache` but never assigns it, so in
every state the real constructor can produce, `this.cache` is `undefined`
and each cache access throws a TypeError — see `ProviderNodeF`, which
models the faithful `Option` cache.  This structure models the intended
wiring and is used only by theorems whose conclusions hold with and
without that repair. -/
structure ProviderNode where
  config : ProviderConfig
  isRetired : Bool
  cache : ChannelCache
deriving DecidableEq, Repr, Inhabited

/-- Error kinds raised by the settlement engine.  `typeError` stands for a
JavaScript `TypeError` from a property access on `undefined`;
`notSubscriber` is declared by the source but, as proved below, never
raised; `cacheError` wraps an error propagated from the channel index. -/
inductive NodeError
  | retired
  | chainNotSupported
  | assetNotSupported
  | insufficientExpiry
  | notSubscriber
  | invalidSignature
  | typeError
  | cacheError (msg : String)
deriving DecidableEq, Repr

namespace ProviderNode

/-- `isChainSupported`: the source iterates
`for (const chain in Object.keys(this.config.chains))`; a for-in loop over
the array of keys enumerates the ARRAY INDICES "0", "1", ... as strings, so
the comparison is against index strings, not against the configured keys. -/
def isChainSupported (p : ProviderNode) (chainId : String) : Bool :=
  (List.range p.config.chains.length).any (fun i => toString i = chainId)

/-- `isAssetSupported`: reads `this.config.chains[chainId].assets` (a
`TypeError` when the chain id is not a configured key) and then iterates the
asset array with for-in, again comparing against index strings. -/
def isAssetSupported (p : ProviderNode) (chainId asset : String) :
    Except NodeError Bool :=
  match p.config.chains.lookup chainId with
  | none => Except.error NodeError.typeError
  | some cc =>
    Except.ok ((List.range cc.assets.length).any (fun i => toString i = asset))

/-- `assertNotRetired` condition. -/
def retiredGuard (p : ProviderNode) : Bool := p.isRetired

/-- `assertValidExpiry`: rejects when `expiry - now` is strictly below the
configured tolerance. -/
def validExpiry (p : ProviderNode) (now expiry : Nat) : Bool :=
  decide ((expiry : Int) - (now : Int) ≥ (p.config.expiryTolerance : Int))

/-- `checkIfSubscriber`: dispatches the `isSubscriber` read through the
ledger capability and returns its result. -/
def checkIfSubscriber (o : Oracle) (chainId subscriber : String) : Bool :=
  o.isSubscriber chainId subscriber

/-- The source guards the subscriber check with
`if (!this.checkIfSubscriber(chainId, subscriber))` but does not await the
async call: the promise object is always truthy, so the negation is always
false and the `NotSubscriber` branch is dead code. -/
def negatedPromiseTruthiness : Bool := false

/-- `retire()`: sets the one-way retirement flag. -/
def retire (p : ProviderNode) : ProviderNode := { p with isRetired := true }

/-- `openChannel`: validates retirement, chain, asset, expiry tolerance,
(vacuously) the subscriber, and the signature by a gas-estimation dry run,
then inserts the channel into the index.  The final `insertChannel` call is
not awaited, so its rejection is unobserved by the caller while its store
effects occur.  The provider value is returned alongside the outcome so
that state effects are explicit; every validation failure happens before
the insert, so the provider comes back unchanged on any error. -/
def openChannel (o : Oracle) (now : Nat) (p : ProviderNode)
    (id chainId subscriber asset amount : String) (expiry : Nat) (signature : String) :
    ProviderNode × Except NodeError String :=
  if retiredGuard p then (p, Except.error NodeError.retired)
  else if !(isChainSupported p chainId) then (p, Except.error NodeError.chainNotSupported)
  else
    match isAssetSupported p chainId asset with
    | Except.error e => (p, Except.error e)
    | Except.ok assetOk =>
      if !assetOk then (p, Except.error NodeError.assetNotSupported)
      else if !(validExpiry p now expiry) then (p, Except.error NodeError.insufficientExpiry)
      else
        let _subscriberCheck := checkIfSubscriber o chainId subscriber
        if negatedPromiseTruthiness then (p, Except.error NodeError.notSubscriber)
        else if !(o.estimateGasOk id asset amount expiry signature) then
          (p, Except.error NodeError.invalidSignature)
        else
          let ins := ChannelCache.insertChannel now p.cache id chainId subscriber
            asset amount expiry signature
          ({ p with cache := ins.1 }, Except.ok id)

/-- `updateChannel`: validates retirement and expiry tolerance, loads the
channel (a `TypeError` from `channel.chainId` when the record is absent),
validates the signature by dry run, and updates the index record.  There is
no comparison between the new amount and the stored amount. -/
def updateChannel (o : Oracle) (now : Nat) (p : ProviderNode)
    (id amount : String) (expiry : Nat) (signature : String) :
    ProviderNode × Except NodeError Nat :=
  if retiredGuard p then (p, Except.error NodeError.retired)
  else if !(validExpiry p now expiry) then (p, Except.error NodeError.insufficientExpiry)
  else
    match ChannelCache.getChannel p.cache id with
    | none => (p, Except.error NodeError.typeError)
    | some channel =>
      if !(o.estimateGasOk id channel.asset amount expiry signature) then
        (p, Except.error NodeError.invalidSignature)
      else
        let r := ChannelCache.updateChannel now p.cache id amount expiry signature
        ({ p with cache := r.1 },
         match r.2 with
         | Except.ok n => Except.ok n
         | Except.error msg => Except.error (NodeError.cacheError msg))

/-- The selection loop of `redeemChannels`: for each open id, load the record
(a `TypeError` from `channel.state` when it is absent) and keep the channels
whose time since last update strictly exceeds the threshold. -/
def collectClosing (now : Nat) (c : ChannelCache) (withMinTime : Int) :
    List String → Except NodeError (List Channel)
  | [] => Except.ok []
  | id :: rest =>
    match ChannelCache.getChannel c id with
    | none => Except.error NodeError.typeError
    | some channel =>
      match collectClosing now c withMinTime rest with
      | Except.error e => Except.error e
      | Except.ok tail =>
        if (now : Int) - (channel.state.timestamp : Int) > withMinTime then
          Except.ok (channel :: tail)
        else Except.ok tail

/-- The per-channel `claim` transactions attempted by the provider's private
`closeChannels`: each failure is only logged (`Unable to close channel`) and
the loop continues. -/
def attemptedClaims (o : Oracle) (channels : List Channel) : List Bool :=
  channels.map (fun channel => o.claimTx channel)

/-- The channels of a sweep whose `claim` transaction succeeded. -/
def succeededClaims (o : Oracle) (channels : List Channel) : List Channel :=
  channels.filter (fun channel => o.claimTx channel)

/-- The provider's private `closeChannels`: attempts the `claim` transaction
for every channel (failures logged and skipped), then closes ALL the given
channels in the cache regardless of the per-channel transaction outcome.
The `cache.closeChannels` call is not awaited; its effects still occur. -/
def closeChannelsTx (o : Oracle) (p : ProviderNode) (channels : List Channel) :
    ProviderNode :=
  let _results := attemptedClaims o channels
  { p with cache := (ChannelCache.closeChannels p.cache
      (channels.map (fun channel => channel.id))).1 }

/-- `redeemChannels(withMinTime)`: snapshots the open list, selects the idle
channels, hands them to `closeChannels`, and returns the LENGTH OF THE
SELECTED LIST. -/
def redeemChannels (o : Oracle) (now : Nat) (p : ProviderNode) (withMinTime : Int) :
    ProviderNode × Except NodeError Nat :=
  match collectClosing now p.cache withMinTime (ChannelCache.getOpenChannels p.cache) with
  | Except.error e => (p, Except.error e)
  | Except.ok closingChannels =>
    (closeChannelsTx o p closingChannels, Except.ok closingChannels.length)

end ProviderNode

/-! ## Faithful store layer (`RedisStore`)

The store as the source actually uses it.  The keys touched are:
`channels:channel`, a hash from channel id to record (all its reads and
writes are well-formed); `channels:list`, a hash whose fields "open" and
"closed" are what every membership-list READ consults — and which no code
path ever writes; and `channels:open` / `channels:closed`, the keys
targeted by the list COMMIT, which is a malformed 2-argument `hset` that
the store rejects.  Consequently no list commit ever lands, and every
operation that commits a list rejects with a store error. -/

structure RedisStore where
  receiver : String
  channelHash : List (String × Channel)
  listHash : List (String × List String)
deriving DecidableEq, Repr, Inhabited

namespace RedisStore

/-- `hget(channels:list, field)`, parsed to an empty list when absent. -/
def hgetList (s : RedisStore) (field : String) : List String :=
  (s.listHash.lookup field).getD []

/-- `getChannel(id)`. -/
def getChannel (s : RedisStore) (id : String) : Option Channel :=
  s.channelHash.lookup id

/-- `getOpenChannels()`: reads field "open" of `channels:list`. -/
def getOpenChannels (s : RedisStore) : List String := s.hgetList "open"

/-- `getClosedChannels()`: reads field "closed" of `channels:list`. -/
def getClosedChannels (s : RedisStore) : List String := s.hgetList "closed"

/-- The list commit `hset(prefix:which, JSON.stringify(channelList))`: an
`hset` needs a field AND a value, so this 2-argument command is rejected by
the store and the awaited promise rejects. -/
def malformedHset : Except String Unit :=
  Except.error "ERR wrong number of arguments for hset"

/-- Faithful `updateChannelList(which, ids, remove)`: read the list from
field `which` of `channels:list`, run the loop on the in-memory copy, then
commit — but the commit is the malformed 2-argument `hset` to the unread
key `channels:which`, so the call rejects and the store is unchanged (the
rewritten list existed only in memory). -/
def updateChannelList (s : RedisStore) (which : String) (ids : List String)
    (remove : Bool) : RedisStore × Except String (List Bool) :=
  let channelList := s.hgetList which
  let res := ids.foldl (ChannelCache.listStep remove) (channelList, [])
  match malformedHset with
  | Except.error e => (s, Except.error e)
  | Except.ok _ => (s, Except.ok res.2)

/-- Faithful `closeChannels(ids)`: the first awaited `updateChannelList`
rejects at its commit, the rejection propagates, and no list is altered —
the closed-insertion pass and the truthiness guards are never reached. -/
def closeChannels (s : RedisStore) (ids : List String) : RedisStore × Except String Bool :=
  let r1 := updateChannelList s "open" ids true
  match r1.2 with
  | Except.error e => (r1.1, Except.error e)
  | Except.ok res1 =>
    if !(ChannelCache.arrayTruthy res1) then (r1.1, Except.ok false)
    else
      let r2 := updateChannelList r1.1 "closed" ids false
      match r2.2 with
      | Except.error e => (r2.1, Except.error e)
      | Except.ok res2 =>
        if !(ChannelCache.arrayTruthy res2) then (r2.1, Except.ok false)
        else (r2.1, Except.ok true)

/-- Faithful `insertChannel`: the duplicate check and the record `hset` are
well-formed, so the record IS written; the subsequent awaited
`updateChannelList("open", [id], false)` then rejects at its commit, so the
call rejects with the store error and the id lands in no membership list. -/
def insertChannel (now : Nat) (s : RedisStore) (id chainId sender asset amount : String)
    (expiry : Nat) (signature : String) : RedisStore × Except String Nat :=
  match s.channelHash.lookup id with
  | some _ =>
    (s, Except.error ("Channel with given ID (" ++ id ++ ") already exists."))
  | none =>
    let channel : Channel :=
      { id := id
        chainId := chainId
        sender := sender
        receiver := s.receiver
        asset := asset
        state :=
          { timestamp := now
            iteration := 1
            amount := amount
            expiry := expiry
            signature := signature } }
    let hres := ChannelCache.hsetChannel s.channelHash id channel
    let s1 := { s with channelHash := hres.1 }
    let r := updateChannelList s1 "open" [id] false
    match r.2 with
    | Except.error e => (r.1, Except.error e)
    | Except.ok _ => (r.1, Except.ok (if hres.2 ≥ 1 then 1 else 0))

/-- Faithful `assertChannelIsOpen(id)`: reads field "open" of
`channels:list`. -/
def assertChannelIsOpen (s : RedisStore) (id : String) : Except String Unit :=
  if ((s.hgetList "open").findIdx? (fun value => value = id)).isSome then Except.ok ()
  else Except.error ("Channel with given ID " ++ id ++ " is no longer open.")

/-- Faithful `updateChannel`: NotFound check and record `hset` are
well-formed; the open-list assertion is invoked without await and its
result discarded. -/
def updateChannel (now : Nat) (s : RedisStore) (id amount : String) (expiry : Nat)
    (signature : String) : RedisStore × Except String Nat :=
  match s.channelHash.lookup id with
  | none =>
    (s, Except.error ("Channel with given ID (" ++ id ++ ") does not exist."))
  | some channel =>
    let _discardedOpenCheck := assertChannelIsOpen s id
    let channel' :=
      { channel with state :=
        { timestamp := now
          iteration := channel.state.iteration + 1
          amount := amount
          expiry := expiry
          signature := signature } }
    let hres := ChannelCache.hsetChannel s.channelHash id channel'
    ({ s with channelHash := hres.1 }, Except.ok (if hres.2 ≥ 1 then 1 else 0))

end RedisStore

/-! ## Faithful settlement engine (`ProviderNodeF`) -/

/-- Faithful provider state.  The source declares
`private readonly cache: ChannelCache` and never assigns it, so `this.cache`
is `undefined` — `none` — in every state the constructor can produce; the
`some` case carries the store a correctly wired instance would hold. -/
structure ProviderNodeF where
  config : ProviderConfig
  isRetired : Bool
  cache : Option RedisStore
deriving DecidableEq, Repr, Inhabited

namespace ProviderNodeF

/-- The constructor: builds the config, leaves `cache` unassigned. -/
def construct (config : ProviderConfig) : ProviderNodeF :=
  { config := config, isRetired := false, cache := none }

/-- Faithful `sendTransaction` dispatch: the body iterates
`for (const provider of this.config[chainId].providers)` — but `this.config`
has only the fields `chains` and `channels`, so indexing it with a chain id
yields `undefined` and the `.providers` access throws a TypeError (for the
two field names themselves the object found has no `providers` field and the
for-of over `undefined` throws identically).  Every dispatch therefore
raises a TypeError before consulting any endpoint, outside the per-endpoint
try/catch, and can never succeed. -/
def sendTransactionF (_chainId : String) : Except NodeError Bool :=
  Except.error NodeError.typeError

/-- Faithful `estimateGas`: same `this.config[chainId].providers` iteration,
same unconditional TypeError. -/
def estimateGasF (_chainId : String) : Except NodeError Bool :=
  Except.error NodeError.typeError

def isChainSupported (p : ProviderNodeF) (chainId : String) : Bool :=
  (List.range p.config.chains.length).any (fun i => toString i = chainId)

def isAssetSupported (p : ProviderNodeF) (chainId asset : String) :
    Except NodeError Bool :=
  match p.config.chains.lookup chainId with
  | none => Except.error NodeError.typeError
  | some cc =>
    Except.ok ((List.range cc.assets.length).any (fun i => toString i = asset))

def validExpiry (p : ProviderNodeF) (now expiry : Nat) : Bool :=
  decide ((expiry : Int) - (now : Int) ≥ (p.config.expiryTolerance : Int))

/-- Faithful `openChannel`: retirement, chain, asset and expiry checks as in
the source; the un-awaited subscriber check is discarded (its promise —
which would itself reject with the dispatch TypeError — is negated, and a
promise object is always truthy); the awaited signature dry run then
rejects with the dispatch TypeError before `this.cache.insertChannel` is
reached; were it reached, the un-awaited insert on the `undefined` cache
would throw the TypeError synchronously. -/
def openChannel (now : Nat) (p : ProviderNodeF)
    (id chainId subscriber asset amount : String) (expiry : Nat) (signature : String) :
    ProviderNodeF × Except NodeError String :=
  if p.isRetired then (p, Except.error NodeError.retired)
  else if !(isChainSupported p chainId) then (p, Except.error NodeError.chainNotSupported)
  else
    match isAssetSupported p chainId asset with
    | Except.error e => (p, Except.error e)
    | Except.ok assetOk =>
      if !assetOk then (p, Except.error NodeError.assetNotSupported)
      else if !(validExpiry p now expiry) then (p, Except.error NodeError.insufficientExpiry)
      else
        let _subscriberCheck := sendTransactionF chainId
        if ProviderNode.negatedPromiseTruthiness then (p, Except.error NodeError.notSubscriber)
        else
          match estimateGasF chainId with
          | Except.error e => (p, Except.error e)
          | Except.ok gasOk =>
            if !gasOk then (p, Except.error NodeError.invalidSignature)
            else
              match p.cache with
              | none => (p, Except.error NodeError.typeError)
              | some s =>
                let ins := RedisStore.insertChannel now s id chainId subscriber asset
                  amount expiry signature
                ({ p with cache := some ins.1 }, Except.ok id)

/-- Faithful `updateChannel`: retirement and expiry checks as in the source;
`await this.cache.getChannel(id)` then throws a TypeError on the
`undefined` cache; were a cache present, a missing record gives the
`channel.chainId` TypeError, and the awaited signature dry run rejects with
the dispatch TypeError before `cache.updateChannel` — no amount comparison
exists anywhere on the path. -/
def updateChannel (now : Nat) (p : ProviderNodeF) (id amount : String) (expiry : Nat)
    (signature : String) : ProviderNodeF × Except NodeError Nat :=
  if p.isRetired then (p, Except.error NodeError.retired)
  else if !(validExpiry p now expiry) then (p, Except.error NodeError.insufficientExpiry)
  else
    match p.cache with
    | none => (p, Except.error NodeError.typeError)
    | some s =>
      match RedisStore.getChannel s id with
      | none => (p, Except.error NodeError.typeError)
      | some channel =>
        match estimateGasF channel.chainId with
        | Except.error e => (p, Except.error e)
        | Except.ok gasOk =>
          if !gasOk then (p, Except.error NodeError.invalidSignature)
          else
            let r := RedisStore.updateChannel now s id amount expiry signature
            ({ p with cache := some r.1 },
             match r.2 with
             | Except.ok n => Except.ok n
             | Except.error msg => Except.error (NodeError.cacheError msg))

/-- The selection loop of the faithful `redeemChannels`. -/
def collectClosing (now : Nat) (s : RedisStore) (withMinTime : Int) :
    List String → Except NodeError (List Channel)
  | [] => Except.ok []
  | id :: rest =>
    match RedisStore.getChannel s id with
    | none => Except.error NodeError.typeError
    | some channel =>
      match collectClosing now s withMinTime rest with
      | Except.error e => Except.error e
      | Except.ok tail =>
        if (now : Int) - (channel.state.timestamp : Int) > withMinTime then
          Except.ok (channel :: tail)
        else Except.ok tail

/-- The claim loop of the provider's private `closeChannels`: each channel's
transaction is awaited, and the dispatch rejects with its TypeError on the
first channel, before the `if (!res)` logging branch can run. -/
def claimLoop : List Channel → Except NodeError Unit
  | [] => Except.ok ()
  | channel :: rest =>
    match sendTransactionF channel.chainId with
    | Except.error e => Except.error e
    | Except.ok _res => claimLoop rest

/-- Faithful `redeemChannels`: `await this.cache.getOpenChannels()` throws a
TypeError on the `undefined` cache; were a cache present, the selection
loop runs, the awaited claim loop rejects on the first selected channel,
and only with an empty selection does the call reach the un-awaited
`cache.closeChannels` (whose commit rejects unobserved, altering nothing)
and return the length of the selected list. -/
def redeemChannels (now : Nat) (p : ProviderNodeF) (withMinTime : Int) :
    ProviderNodeF × Except NodeError Nat :=
  match p.cache with
  | none => (p, Except.error NodeError.typeError)
  | some s =>
    match collectClosing now s withMinTime (RedisStore.getOpenChannels s) with
    | Except.error e => (p, Except.error e)
    | Except.ok closingChannels =>
      match claimLoop closingChannels with
      | Except.error e => (p, Except.error e)
      | Except.ok _ =>
        ({ p with cache := some (RedisStore.closeChannels s
            (closingChannels.map (fun channel => channel.id))).1 },
         Except.ok closingChannels.length)

end ProviderNodeF

/-! ## Concrete instances used by the theorems below -/

/-- An index state with no records and empty membership lists. -/
def emptyCache : ChannelCache where
  receiver := "prov"
  channels := []
  openList := []
  closedList := []

/-- A stored channel record with amount 100 last updated at time 0. -/
def chanX : Channel where
  id := "X"
  chainId := "0"
  sender := "alice"
  receiver := "prov"
  asset := "0"
  state :=
    { timestamp := 0
      iteration := 1
      amount := "100"
      expiry := 999999
      signature := "sg" }

/-- The faithful store of a fresh deployment: no records, no list data. -/
def emptyStore : RedisStore where
  receiver := "prov"
  channelHash := []
  listHash := []

/-- A faithful store holding the record of `chanX` with the readable open
list (field "open" of `channels:list`) containing "X". -/
def storeWithOpenX : RedisStore where
  receiver := "prov"
  channelHash := [("X", chanX)]
  listHash := [("open", ["X"])]

/-- An index holding the record of `chanX` while the id is no longer in the
open list. -/
def cacheWithClosedX : ChannelCache where
  receiver := "prov"
  channels := [("X", chanX)]
  openList := []
  closedList := ["X"]

/-- One configured chain (stored under key "0" so that the index-string
comparison of `isChainSupported` can succeed) with one allow-listed asset,
and a 100-second expiry tolerance. -/
def baseConfig : ProviderConfig where
  chains := [("0", { assets := ["tok"] })]
  expiryTolerance := 100

/-- A faithful provider granted a wired cache holding `storeWithOpenX`
(the source constructor itself always leaves `cache := none`). -/
def providerFX : ProviderNodeF where
  config := baseConfig
  isRetired := false
  cache := some storeWithOpenX

/-- A provider with an empty index. -/
def freshProvider : ProviderNode where
  config := baseConfig
  isRetired := false
  cache := emptyCache

/-- A ledger oracle on which every dispatched call succeeds. -/
def okOracle : Oracle where
  isSubscriber := fun _ _ => true
  estimateGasOk := fun _ _ _ _ _ => true
  claimTx := fun _ => true

/-- A concrete channel state object for the heap fixtures. -/
def heapState0 : State where
  iteration := 1
  amount := 3
  expiry := 150
  signature := some "old"
  status := Status.OPEN

/-- A concrete session cell pointing at `heapState0`. -/
def heapCell0 : SessionCell where
  id := "a"
  chainId := "0"
  sender := "s"
  receiver := "r"
  nonce := 1
  asset := "t"
  stateRef := 0

/-- A one-channel heap. -/
def heap0 : Heap where
  states := [heapState0]
  sessions := [heapCell0]

/-- The channel object living at session reference 0 of `heap0`. -/
def chanRef0 : ChannelRef where
  TTL := 600
  sessionRef := 0

end Semaphore

namespace Semaphore

/-! ## Claim theorems -/

/-- Claim C1: `closeMany` should apply, per id, the removal from "open" and
the insertion into "closed" together or not at all, an id absent from
"open" failing alone without being added to "closed".  In the real store
the operation is inoperative: the list commit is a malformed 2-argument
`hset` to the unread key `channels:open` / `channels:closed`, so EVERY
`closeChannels` call rejects with a store error and alters nothing — an id
present in the readable open list stays open and is never moved to closed,
and an inserted id likewise ends in NO membership list at all (its record
exists outside both lists).  The per-id close outcomes the claim describes
do not exist in the code. -/
theorem closeMany_commit_never_lands :
    (RedisStore.closeChannels emptyStore ["X"]).2
      = Except.error "ERR wrong number of arguments for hset"
    ∧ (RedisStore.closeChannels emptyStore ["X"]).1 = emptyStore
    ∧ (RedisStore.closeChannels storeWithOpenX ["X"]).2
      = Except.error "ERR wrong number of arguments for hset"
    ∧ (RedisStore.closeChannels storeWithOpenX ["X"]).1 = storeWithOpenX
    ∧ (RedisStore.getOpenChannels storeWithOpenX).contains "X" = true
    ∧ (RedisStore.insertChannel 5 emptyStore "X" "0" "alice" "0" "10" 999 "sg").2
      = Except.error "ERR wrong number of arguments for hset"
    ∧ (RedisStore.getChannel
        (RedisStore.insertChannel 5 emptyStore "X" "0" "alice" "0" "10" 999 "sg").1
        "X").isSome = true
    ∧ RedisStore.getOpenChannels
        (RedisStore.insertChannel 5 emptyStore "X" "0" "alice" "0" "10" 999 "sg").1 = []
    ∧ RedisStore.getClosedChannels
        (RedisStore.insertChannel 5 emptyStore "X" "0" "alice" "0" "10" 999 "sg").1 = [] :=
  ⟨rfl, rfl, rfl, rfl, rfl, rfl, rfl, rfl, rfl⟩

/-- Claim C2: the count returned by `redeemChannels(minIdleSeconds)` should
be the number of channels whose redemption transaction succeeded.  The
real sweep never returns a count at all: on every provider the constructor
can produce, the first `this.cache` access throws a TypeError (the cache
field is never initialized), and even granting a wired cache holding one
idle open channel, the awaited claim dispatch throws its TypeError before
the `return closingChannels.length` line; the value that line would return
is moreover the attempted count, not the number of successes. -/
theorem redeemChannels_never_returns_count :
    (∀ (cfg : ProviderConfig) (now : Nat) (withMinTime : Int),
      ProviderNodeF.redeemChannels now (ProviderNodeF.construct cfg) withMinTime
        = (ProviderNodeF.construct cfg, Except.error NodeError.typeError))
    ∧ ProviderNodeF.collectClosing 1000 storeWithOpenX 10
        (RedisStore.getOpenChannels storeWithOpenX) = Except.ok [chanX]
    ∧ (ProviderNodeF.redeemChannels 1000 providerFX 10).2
      = Except.error NodeError.typeError
    ∧ (ProviderNodeF.redeemChannels 1000 providerFX 10).1 = providerFX :=
  ⟨fun _ _ _ => rfl, rfl, rfl, rfl⟩

/-- The faithful sweep never mutates the provider: the cache access, the
selection loop or the awaited claim dispatch rejects first, and with an
empty selection the un-awaited list commit rejects unobserved, altering
nothing. -/
theorem redeemChannelsF_fst (now : Nat) (p : ProviderNodeF) (withMinTime : Int) :
    (ProviderNodeF.redeemChannels now p withMinTime).1 = p := by
  obtain ⟨cfg, ret, cch⟩ := p
  cases cch with
  | none => rfl
  | some s =>
    simp only [ProviderNodeF.redeemChannels]
    cases h1 : ProviderNodeF.collectClosing now s withMinTime
        (RedisStore.getOpenChannels s) with
    | error e => simp [h1]
    | ok closing =>
      cases closing with
      | nil =>
        simp [h1, ProviderNodeF.claimLoop, RedisStore.closeChannels,
          RedisStore.updateChannelList, RedisStore.malformedHset]
      | cons channel rest =>
        simp [h1, ProviderNodeF.claimLoop, ProviderNodeF.sendTransactionF]

/-- Claim C3: a channel selected by a sweep whose ledger redemption
transaction fails is, after the sweep, still a member of the "open" list
with its record (hence iteration and amount) unchanged, so a later sweep
can retry it.  In the real code every selected channel's transaction fails
(the dispatch throws a TypeError before reaching any endpoint) and the
sweep rejects before any observable store mutation, so the store — open
list membership and record included — is exactly as before. -/
theorem failed_redemption_channel_remains_open (now : Nat) (p : ProviderNodeF)
    (withMinTime : Int) (s : RedisStore) (id : String) (channel : Channel)
    (hcache : p.cache = some s)
    (hmem : (RedisStore.getOpenChannels s).contains id = true)
    (hrec : RedisStore.getChannel s id = some channel) :
    ProviderNodeF.sendTransactionF channel.chainId = Except.error NodeError.typeError
    ∧ ∃ s2, (ProviderNodeF.redeemChannels now p withMinTime).1.cache = some s2
        ∧ (RedisStore.getOpenChannels s2).contains id = true
        ∧ RedisStore.getChannel s2 id = some channel := by
  refine ⟨rfl, s, ?_, hmem, hrec⟩
  rw [redeemChannelsF_fst]
  exact hcache

/-- Witness for C3: the sweep over `providerFX` (one idle open channel "X"
whose claim dispatch fails) leaves "X" in the open list with its record
intact. -/
theorem failed_redemption_channel_remains_open_witness :
    ProviderNodeF.sendTransactionF chanX.chainId = Except.error NodeError.typeError
    ∧ ∃ s2, (ProviderNodeF.redeemChannels 1000 providerFX 10).1.cache = some s2
        ∧ (RedisStore.getOpenChannels s2).contains "X" = true
        ∧ RedisStore.getChannel s2 "X" = some chanX :=
  failed_redemption_channel_remains_open 1000 providerFX 10 storeWithOpenX "X" chanX
    rfl rfl rfl

/-- Claim C4: a settlement-engine `updateChannel` whose amount is strictly
below the stored amount should fail with AmountRegression before any
mutation.  The real method contains no amount comparison and, past the
expiry check, always throws a TypeError before touching the index: on
every constructed provider the uninitialized `this.cache` crashes the
lookup, and even granting a wired cache holding "X" with amount "100", the
awaited signature dry run crashes before `cache.updateChannel` — the
regressing update mutates nothing, but the failure is a TypeError, never
AmountRegression. -/
theorem updateChannel_crashes_before_amount_check :
    (∀ (id amount signature : String),
      ProviderNodeF.updateChannel 0 (ProviderNodeF.construct baseConfig) id amount
          1000 signature
        = (ProviderNodeF.construct baseConfig, Except.error NodeError.typeError))
    ∧ (RedisStore.getChannel storeWithOpenX "X").map (fun ch => ch.state.amount)
      = some "100"
    ∧ (ProviderNodeF.updateChannel 0 providerFX "X" "50" 1000 "s2").2
      = Except.error NodeError.typeError
    ∧ (ProviderNodeF.updateChannel 0 providerFX "X" "50" 1000 "s2").1 = providerFX :=
  ⟨fun _ _ _ => rfl, rfl, rfl, rfl⟩

/-- Claim C5: the index `update` should fail with NotOpen, without touching
the record, when the id is not in the open list.  The code calls
`assertChannelIsOpen` without awaiting it, so although the assertion
rejects (as shown), the update succeeds anyway and modifies the record. -/
theorem cache_update_ignores_open_assertion :
    ChannelCache.assertChannelIsOpen cacheWithClosedX "X"
      = Except.error "Channel with given ID X is no longer open."
    ∧ (ChannelCache.updateChannel 7 cacheWithClosedX "X" "200" 888 "s3").2 = Except.ok 0
    ∧ (ChannelCache.getChannel
        (ChannelCache.updateChannel 7 cacheWithClosedX "X" "200" 888 "s3").1 "X").map
        (fun ch => (ch.state.iteration, ch.state.amount, ch.state.timestamp))
      = some (2, "200", 7) :=
  ⟨rfl, rfl, rfl⟩

/-- Claim C6: an `openChannel` whose subscriber fails the external
membership check should fail with NotSubscriber and create nothing.  The
code negates the un-awaited promise of the membership check — a promise
object is always truthy — so the check result is never consulted and
NotSubscriber is never raised: for EVERY subscriber (a fortiori one the
check would reject) the call behaves identically, rejecting with the
TypeError thrown inside the awaited signature dry run before
`cache.insertChannel`, and creating no record or open-list entry (the
provider state is unchanged). -/
theorem openChannel_never_raises_notSubscriber :
    ProviderNode.negatedPromiseTruthiness = false
    ∧ (∀ subscriber : String,
        ProviderNodeF.openChannel 0 (ProviderNodeF.construct baseConfig) "X" "0"
            subscriber "0" "10" 1000 "sg"
          = (ProviderNodeF.construct baseConfig, Except.error NodeError.typeError))
    ∧ (∀ subscriber : String,
        ProviderNodeF.openChannel 0 providerFX "X" "0" subscriber "0" "10" 1000 "sg"
          = (providerFX, Except.error NodeError.typeError)) :=
  ⟨rfl, fun _ => rfl, fun _ => rfl⟩

/-- Claim C8: `retire()` is idempotent and one-way; after it, `openChannel`
and `updateChannel` fail with the RetiredService error and leave the
provider untouched, while `redeemChannels` behaves exactly as on the
un-retired provider (same outcome, same index effects), and no operation
clears the flag. -/
theorem retire_oneway_idempotent_and_scoped (o : Oracle) (now : Nat) (p : ProviderNode)
    (withMinTime : Int) (id chainId subscriber asset amount : String) (expiry : Nat)
    (signature : String) (uid uamount : String) (uexpiry : Nat) (usignature : String) :
    ProviderNode.retire (ProviderNode.retire p) = ProviderNode.retire p
    ∧ ProviderNode.openChannel o now (ProviderNode.retire p) id chainId subscriber asset
        amount expiry signature = (ProviderNode.retire p, Except.error NodeError.retired)
    ∧ ProviderNode.updateChannel o now (ProviderNode.retire p) uid uamount uexpiry usignature
        = (ProviderNode.retire p, Except.error NodeError.retired)
    ∧ ProviderNode.redeemChannels o now (ProviderNode.retire p) withMinTime
        = (ProviderNode.retire (ProviderNode.redeemChannels o now p withMinTime).1,
           (ProviderNode.redeemChannels o now p withMinTime).2)
    ∧ (ProviderNode.openChannel o now p id chainId subscriber asset amount expiry
        signature).1.isRetired = p.isRetired
    ∧ (ProviderNode.updateChannel o now p uid uamount uexpiry usignature).1.isRetired
        = p.isRetired
    ∧ (ProviderNode.redeemChannels o now p withMinTime).1.isRetired = p.isRetired := by
  have hc : (ProviderNode.retire p).cache = p.cache := rfl
  refine ⟨rfl, rfl, rfl, ?_, ?_, ?_, ?_⟩
  · unfold ProviderNode.redeemChannels
    simp only [hc]
    cases h : ProviderNode.collectClosing now p.cache withMinTime
        (ChannelCache.getOpenChannels p.cache) with
    | error e => rfl
    | ok l => rfl
  · unfold ProviderNode.openChannel
    by_cases h1 : ProviderNode.retiredGuard p
    · simp [h1]
    · simp only [h1, Bool.false_eq_true, if_false]
      by_cases h2 : ProviderNode.isChainSupported p chainId
      · simp only [h2, Bool.not_true, Bool.false_eq_true, if_false]
        cases h3 : ProviderNode.isAssetSupported p chainId asset with
        | error e => rfl
        | ok b =>
          cases b with
          | false => rfl
          | true =>
            by_cases h4 : ProviderNode.validExpiry p now expiry <;>
              by_cases h5 : o.estimateGasOk id asset amount expiry signature <;>
                simp [h4, h5, ProviderNode.negatedPromiseTruthiness]
      · simp [h2]
  · unfold ProviderNode.updateChannel
    by_cases h1 : ProviderNode.retiredGuard p
    · simp [h1]
    · simp only [h1, Bool.false_eq_true, if_false]
      by_cases h2 : ProviderNode.validExpiry p now uexpiry
      · simp only [h2, Bool.not_true, Bool.false_eq_true, if_false]
        cases h3 : ChannelCache.getChannel p.cache uid with
        | none => rfl
        | some channel =>
          by_cases h4 : o.estimateGasOk uid channel.asset uamount uexpiry usignature <;>
            simp [h4]
      · simp [h2]
  · unfold ProviderNode.redeemChannels
    cases h : ProviderNode.collectClosing now p.cache withMinTime
        (ChannelCache.getOpenChannels p.cache) with
    | error e => rfl
    | ok l => rfl

/-- Claim C7: provided the call survives the preceding retirement, chain and
asset checks, `openChannel` fails with the InsufficientExpiry error exactly
when `expiry - now` is strictly below the configured tolerance, and
whenever the call fails for any reason the provider state is unchanged (in
particular the id is created neither in the record store nor in the open
list). -/
theorem openChannel_expiry_validation (o : Oracle) (now : Nat) (p : ProviderNode)
    (id chainId subscriber asset amount : String) (expiry : Nat) (signature : String)
    (hRet : p.isRetired = false)
    (hChain : ProviderNode.isChainSupported p chainId = true)
    (hAsset : ProviderNode.isAssetSupported p chainId asset = Except.ok true) :
    ((ProviderNode.openChannel o now p id chainId subscriber asset amount expiry
        signature).2 = Except.error NodeError.insufficientExpiry
      ↔ (expiry : Int) - (now : Int) < (p.config.expiryTolerance : Int))
    ∧ (∀ e : NodeError,
        (ProviderNode.openChannel o now p id chainId subscriber asset amount expiry
          signature).2 = Except.error e →
        (ProviderNode.openChannel o now p id chainId subscriber asset amount expiry
          signature).1 = p) := by
  unfold ProviderNode.openChannel ProviderNode.retiredGuard
  rw [hRet, hChain, hAsset]
  by_cases hexp : (expiry : Int) - (now : Int) < (p.config.expiryTolerance : Int)
  · have hv : ProviderNode.validExpiry p now expiry = false := by
      unfold ProviderNode.validExpiry
      simpa using hexp
    simp [hv, hexp]
  · have hv : ProviderNode.validExpiry p now expiry = true := by
      unfold ProviderNode.validExpiry
      simpa using not_lt.mp hexp
    by_cases hgas : o.estimateGasOk id asset amount expiry signature = true
    · simp [hv, hgas, hexp, ProviderNode.negatedPromiseTruthiness]
    · have hgas' : o.estimateGasOk id asset amount expiry signature = false :=
        Bool.eq_false_iff.mpr hgas
      simp [hv, hgas', hexp, ProviderNode.negatedPromiseTruthiness]

/-- Witness for C7 at a concrete call: the chain stored under key "0", its
asset at index 0, tolerance 100, a fresh provider, expiry 1000 at time 0. -/
theorem openChannel_expiry_validation_witness :
    ((ProviderNode.openChannel okOracle 0 freshProvider "X" "0" "alice" "0" "10" 1000
        "sg").2 = Except.error NodeError.insufficientExpiry
      ↔ ((1000 : Nat) : Int) - ((0 : Nat) : Int) < (freshProvider.config.expiryTolerance : Int))
    ∧ (∀ e : NodeError,
        (ProviderNode.openChannel okOracle 0 freshProvider "X" "0" "alice" "0" "10" 1000
          "sg").2 = Except.error e →
        (ProviderNode.openChannel okOracle 0 freshProvider "X" "0" "alice" "0" "10" 1000
          "sg").1 = freshProvider) :=
  openChannel_expiry_validation okOracle 0 freshProvider "X" "0" "alice" "0" "10" 1000 "sg"
    (by rfl) (by rfl) (by rfl)

/-- Claim C9: `PaymentChannel.update(amount, signature)` succeeds exactly
while the status is OPEN and the local watchdog expiry has not passed,
failing with the IllegalState error ("Session is closed.") otherwise; on
success it bumps the iteration by exactly 1, overwrites amount and
signature, recomputes the watchdog expiry as `now + TTL`, and changes
nothing else. -/
theorem paymentChannel_update_spec (now amount : Nat) (signature : String)
    (pc : PaymentChannel) :
    match PaymentChannel.update now amount signature pc with
    | Except.error e =>
        e = "Session is closed."
        ∧ (pc._session.state.status = Status.CLOSED ∨ now > pc._session.state.expiry)
    | Except.ok pc' =>
        pc._session.state.status = Status.OPEN
        ∧ now ≤ pc._session.state.expiry
        ∧ pc' = { pc with _session := { pc._session with
            state := { pc._session.state with
              iteration := pc._session.state.iteration + 1
              amount := amount
              signature := some signature
              expiry := now + pc.TTL } } } := by
  cases hst : pc._session.state.status with
  | CLOSED =>
    have : PaymentChannel.update now amount signature pc
        = Except.error "Session is closed." := by
      unfold PaymentChannel.update PaymentChannel.isOpen
      simp [hst]
    rw [this]
    exact ⟨rfl, Or.inl rfl⟩
  | OPEN =>
    by_cases hexp : now > pc._session.state.expiry
    · have : PaymentChannel.update now amount signature pc
          = Except.error "Session is closed." := by
        unfold PaymentChannel.update PaymentChannel.isOpen PaymentChannel.checkExpiry
        simp [hst, hexp]
      rw [this]
      exact ⟨rfl, Or.inr hexp⟩
    · have : PaymentChannel.update now amount signature pc
          = Except.ok { pc with _session := { pc._session with
              state := { pc._session.state with
                iteration := pc._session.state.iteration + 1
                amount := amount
                signature := some signature
                expiry := now + pc.TTL } } } := by
        unfold PaymentChannel.update PaymentChannel.pushExpiry PaymentChannel.isOpen
          PaymentChannel.checkExpiry
        simp [hst, hexp]
      rw [this]
      exact ⟨rfl, not_lt.mp hexp, rfl⟩

/-- Reading below the length of the left list is unaffected by appending. -/
theorem getD_append_lt {α : Type _} (l l' : List α) (d : α) (i : Nat)
    (h : i < l.length) : (l ++ l').getD i d = l.getD i d := by
  induction l generalizing i with
  | nil => simp at h
  | cons a t ih =>
    cases i with
    | zero => rfl
    | succ n =>
      have := ih n (by simp at h; omega)
      simpa using this

/-- Reading the slot just past the left list yields the appended element. -/
theorem getD_append_self {α : Type _} (l : List α) (x d : α) :
    (l ++ [x]).getD l.length d = x := by
  induction l with
  | nil => rfl
  | cons a t ih => simp [ih]

/-- Overwriting the slot just past the left list replaces the appended
element. -/
theorem set_append_self {α : Type _} (l : List α) (x y : α) :
    (l ++ [x]).set l.length y = l ++ [y] := by
  induction l with
  | nil => rfl
  | cons a t ih => simp [ih]

/-- Claim C10: the `session` getter returns a defensive copy with a freshly
copied state object: after arbitrary mutations of the returned session cell
and of its nested state object, the channel view assembled from the
internal reference — the input to every later `session`, `isOpen` and
`update` call — is unchanged, so those calls return what they returned
before the mutation. -/
theorem session_getter_defensive_copy (h : Heap) (c : ChannelRef)
    (f : SessionCell → SessionCell) (g : State → State) (now amt : Nat) (sig : String)
    (hs : c.sessionRef < h.sessions.length)
    (ht : (h.readSession c.sessionRef).stateRef < h.states.length) :
    Heap.toChannel
        (Heap.writeState
          (Heap.writeSession (Heap.sessionGetter h c).1 (Heap.sessionGetter h c).2 f)
          (((Heap.sessionGetter h c).1.readSession (Heap.sessionGetter h c).2).stateRef) g)
        c
      = Heap.toChannel h c
    ∧ PaymentChannel.isOpen now
        (Heap.toChannel
          (Heap.writeState
            (Heap.writeSession (Heap.sessionGetter h c).1 (Heap.sessionGetter h c).2 f)
            (((Heap.sessionGetter h c).1.readSession (Heap.sessionGetter h c).2).stateRef) g)
          c)
      = PaymentChannel.isOpen now (Heap.toChannel h c)
    ∧ PaymentChannel.update now amt sig
        (Heap.toChannel
          (Heap.writeState
            (Heap.writeSession (Heap.sessionGetter h c).1 (Heap.sessionGetter h c).2 f)
            (((Heap.sessionGetter h c).1.readSession (Heap.sessionGetter h c).2).stateRef) g)
          c)
      = PaymentChannel.update now amt sig (Heap.toChannel h c) := by
  have hmain :
      Heap.toChannel
        (Heap.writeState
          (Heap.writeSession (Heap.sessionGetter h c).1 (Heap.sessionGetter h c).2 f)
          (((Heap.sessionGetter h c).1.readSession (Heap.sessionGetter h c).2).stateRef) g)
        c
      = Heap.toChannel h c := by
    have ht' : (h.sessions.getD c.sessionRef default).stateRef < h.states.length := ht
    simp only [Heap.sessionGetter, Heap.writeSession, Heap.writeState, Heap.readSession,
      Heap.readState, Heap.toChannel, set_append_self, getD_append_self]
    rw [getD_append_lt _ _ _ _ hs]
    rw [getD_append_lt _ _ _ _ ht']
  exact ⟨hmain, by rw [hmain], by rw [hmain]⟩

/-- Witness for C10 on the one-channel heap `heap0`, overwriting the id of
the returned session and the amount of its nested state. -/
theorem session_getter_defensive_copy_witness :
    Heap.toChannel
        (Heap.writeState
          (Heap.writeSession (Heap.sessionGetter heap0 chanRef0).1
            (Heap.sessionGetter heap0 chanRef0).2
            (fun cell => { cell with id := "mutated" }))
          (((Heap.sessionGetter heap0 chanRef0).1.readSession
            (Heap.sessionGetter heap0 chanRef0).2).stateRef)
          (fun st => { st with amount := 77 }))
        chanRef0
      = Heap.toChannel heap0 chanRef0
    ∧ PaymentChannel.isOpen 100
        (Heap.toChannel
          (Heap.writeState
            (Heap.writeSession (Heap.sessionGetter heap0 chanRef0).1
              (Heap.sessionGetter heap0 chanRef0).2
              (fun cell => { cell with id := "mutated" }))
            (((Heap.sessionGetter heap0 chanRef0).1.readSession
              (Heap.sessionGetter heap0 chanRef0).2).stateRef)
            (fun st => { st with amount := 77 }))
          chanRef0)
      = PaymentChannel.isOpen 100 (Heap.toChannel heap0 chanRef0)
    ∧ PaymentChannel.update 100 7 "sig"
        (Heap.toChannel
          (Heap.writeState
            (Heap.writeSession (Heap.sessionGetter heap0 chanRef0).1
              (Heap.sessionGetter heap0 chanRef0).2
              (fun cell => { cell with id := "mutated" }))
            (((Heap.sessionGetter heap0 chanRef0).1.readSession
              (Heap.sessionGetter heap0 chanRef0).2).stateRef)
            (fun st => { st with amount := 77 }))
          chanRef0)
      = PaymentChannel.update 100 7 "sig" (Heap.toChannel heap0 chanRef0) :=
  session_getter_defensive_copy heap0 chanRef0
    (fun cell => { cell with id := "mutated" }) (fun st => { st with amount := 77 })
    100 7 "sig" (by decide) (by decide)

end Semaphore
